import Mathlib

/-!
Verification of the CleanVentures venture membership and financial lifecycle
engine: a shallow embedding of the wallet store, ventures store (reducer and
helpers), the permission model, and the financial orchestration handlers of
the venture-detail screen, together with theorems settling the specification
claims about them.

Numbers of the source (JS) are modelled as rationals; JS Math.round is
modelled exactly (round half toward positive infinity). JS Record objects
that are only ever accessed by key are modelled as functions to Option.
-/

namespace CleanVentures

-- ─── Enumerated types (string unions of the source) ──────────────────────────

/-- Venture lifecycle status. -/
inductive VentureStatus
  | proposed
  | ongoing
  | finished
deriving DecidableEq, Repr

/-- Member participation role. -/
inductive UserRole
  | volunteer
  | contributing_volunteer
  | sponsor
deriving DecidableEq, Repr

/-- Member authority level; the source also uses null, modelled as Option. -/
inductive UserPrivilege
  | coOwner
  | admin
  | buyer
  | viewer
deriving DecidableEq, Repr

/-- Venture scope tag. -/
inductive Scope
  | clean
  | beautify
deriving DecidableEq, Repr

/-- Venture transaction type. -/
inductive TxType
  | contribution
  | purchase
  | cashout
  | refund
deriving DecidableEq, Repr

/-- Join request decision status. -/
inductive RequestStatus
  | pending
  | approved
  | denied
deriving DecidableEq, Repr

/-- Wallet transaction type. -/
inductive WalletTxType
  | topup
  | deduct
deriving DecidableEq, Repr

-- ─── Data structures ─────────────────────────────────────────────────────────

structure Coordinates where
  lat : ℚ
  lng : ℚ
deriving DecidableEq, Repr

structure OwnerStats where
  completed : ℚ
  rating : ℚ
deriving DecidableEq, Repr

/-- Venture record (mock-data Venture interface). -/
structure Venture where
  id : String
  name : String
  location : String
  coordinates : Coordinates
  description : String
  status : VentureStatus
  scope : List Scope
  category : String
  isFree : Bool
  budget : ℚ
  currentFunding : ℚ
  eac : ℚ
  volunteersJoined : ℚ
  volunteersRequired : ℚ
  startDate : String
  endDate : String
  images : List String
  tags : List String
  ownerName : String
  ownerAvatar : String
  ownerStats : OwnerStats
  myRole : Option UserRole
  myPrivilege : Option UserPrivilege
deriving DecidableEq, Repr

/-- Task record (mock-data Task interface). -/
structure Task where
  id : String
  ventureId : String
  title : String
  description : String
  tag : String
  isExpanded : Option Bool
  assignee : Option String
  assigneeAvatar : Option String
  assignees : Option (List String)
  assigneeNames : Option (List String)
  assigneeAvatars : Option (List String)
  completed : Option Bool
  dueDate : Option String
deriving DecidableEq, Repr

/-- Join request record (mock-data JoinRequest interface). -/
structure JoinRequest where
  id : String
  ventureId : String
  username : String
  authUsername : Option String
  avatar : String
  rating : ℚ
  role : UserRole
  privilege : Option UserPrivilege
  pitch : ℚ
  message : String
  status : Option RequestStatus
deriving DecidableEq, Repr

/-- Venture ledger transaction (mock-data Transaction interface). -/
structure Transaction where
  id : String
  ventureId : String
  type : TxType
  username : String
  amount : ℚ
  description : String
  timestamp : String
deriving DecidableEq, Repr

/-- Venture member record (ventures-store VentureMember). -/
structure VentureMember where
  id : String
  username : String
  authUsername : Option String
  avatar : String
  role : UserRole
  privilege : Option UserPrivilege
  isOwner : Option Bool
deriving DecidableEq, Repr

/-- Pledge record (ventures-store Pledge). -/
structure Pledge where
  authUsername : String
  displayName : String
  amount : ℚ
  ventureId : String
deriving DecidableEq, Repr

/-- Wallet ledger transaction (wallet-store WalletTransaction). -/
structure WalletTransaction where
  id : String
  type : WalletTxType
  amount : ℚ
  label : String
  timestamp : String
deriving DecidableEq, Repr

/-- Per-user wallet (wallet-store UserWallet). -/
structure UserWallet where
  balance : ℚ
  transactions : List WalletTransaction
deriving DecidableEq, Repr

-- ─── JS Record objects accessed by key ───────────────────────────────────────

/-- A JS Record object that the source only ever reads and writes by key. -/
def RecordMap (α : Type) : Type := String → Option α

/-- Key read, obj[k]. -/
def getEntry {α : Type} (m : RecordMap α) (k : String) : Option α := m k

/-- Key write by object spread, putting v at k and keeping every other key. -/
def setEntry {α : Type} (m : RecordMap α) (k : String) (v : α) : RecordMap α :=
  fun q => if q = k then some v else m q

/-- The empty Record object. -/
def emptyRecord {α : Type} : RecordMap α := fun _ => none

/-- JS Math.round: round half toward positive infinity. -/
def mathRound (q : ℚ) : ℤ := ⌊q + 1 / 2⌋

/-- JS Math.max on two numbers. -/
def mathMax (a b : ℚ) : ℚ := if a ≤ b then b else a

-- ─── Wallet store (WalletStore reducer and accessors) ────────────────────────

/-- Per-user wallet map, keyed by authUsername. -/
def WalletMap : Type := RecordMap UserWallet

/-- Starting balances for each demo user (INITIAL_BALANCES record). -/
def INITIAL_BALANCES (authUsername : String) : Option ℚ :=
  if authUsername = "abhijeet" then some 5000
  else if authUsername = "priya" then some 3500
  else if authUsername = "rahul" then some 2800
  else none

def DEFAULT_INITIAL_BALANCE : ℚ := 1200

/-- Lazily initialize a wallet with the configured starting balance. -/
def getOrCreateWallet (wallets : WalletMap) (authUsername : String) : UserWallet :=
  match getEntry wallets authUsername with
  | some w => w
  | none => { balance := (INITIAL_BALANCES authUsername).getD DEFAULT_INITIAL_BALANCE
              transactions := [] }

/-- TOPUP reducer case; nowMs stands for Date.now, nowIso for the ISO timestamp. -/
def topup (wallets : WalletMap) (authUsername : String) (amount : ℚ) (label : String)
    (nowMs : Nat) (nowIso : String) : WalletMap :=
  let wallet := getOrCreateWallet wallets authUsername
  let tx : WalletTransaction :=
    { id := "tx-" ++ toString nowMs, type := WalletTxType.topup, amount := amount
      label := label, timestamp := nowIso }
  setEntry wallets authUsername
    { balance := wallet.balance + amount, transactions := tx :: wallet.transactions }

/-- DEDUCT reducer case; the label is optional and defaults to Purchase. -/
def deduct (wallets : WalletMap) (authUsername : String) (amount : ℚ) (label : Option String)
    (nowMs : Nat) (nowIso : String) : WalletMap :=
  let wallet := getOrCreateWallet wallets authUsername
  let tx : WalletTransaction :=
    { id := "tx-" ++ toString nowMs, type := WalletTxType.deduct, amount := amount
      label := label.getD "Purchase", timestamp := nowIso }
  setEntry wallets authUsername
    { balance := mathMax 0 (wallet.balance - amount), transactions := tx :: wallet.transactions }

def getBalance (wallets : WalletMap) (authUsername : String) : ℚ :=
  (getOrCreateWallet wallets authUsername).balance

def getTransactions (wallets : WalletMap) (authUsername : String) : List WalletTransaction :=
  (getOrCreateWallet wallets authUsername).transactions

-- ─── Seed data (mock-data MOCK_TRANSACTIONS) ─────────────────────────────────

def MOCK_TRANSACTIONS : List Transaction :=
  [ { id := "tx1", ventureId := "v1", type := TxType.contribution, username := "Abhijeet P."
      amount := 500, description := "Owner initial contribution", timestamp := "2026-02-15T10:00:00Z" }
  , { id := "tx2", ventureId := "v1", type := TxType.contribution, username := "Priya M."
      amount := 300, description := "Contributing volunteer joined", timestamp := "2026-02-16T14:30:00Z" }
  , { id := "tx3", ventureId := "v1", type := TxType.contribution, username := "TechCorp Sponsor"
      amount := 2000, description := "Sponsor contribution", timestamp := "2026-02-17T09:00:00Z" }
  , { id := "tx4", ventureId := "v1", type := TxType.purchase, username := "Abhijeet P."
      amount := -450, description := "Ordered 20 pairs of gloves + masks", timestamp := "2026-02-18T11:00:00Z" }
  , { id := "tx5", ventureId := "v1", type := TxType.contribution, username := "Rohan S."
      amount := 400, description := "Contributing volunteer joined", timestamp := "2026-02-19T16:00:00Z" }
  , { id := "tx6", ventureId := "v8", type := TxType.contribution, username := "Farhan A."
      amount := 700, description := "Owner initial contribution", timestamp := "2026-02-01T08:00:00Z" }
  , { id := "tx7", ventureId := "v8", type := TxType.contribution, username := "Priya M."
      amount := 350, description := "Contributing volunteer", timestamp := "2026-02-03T10:00:00Z" } ]

-- ─── Ventures store (VenturesStore reducer and accessors) ────────────────────

structure VenturesState where
  ventures : List Venture
  tasks : RecordMap (List Task)
  joinRequests : RecordMap (List JoinRequest)
  members : RecordMap (List VentureMember)
  ventureTxs : RecordMap (List Transaction)
  pledges : RecordMap (List Pledge)

/-- updateVentureStatus: dispatches UPDATE_VENTURE with patch containing the status. -/
def updateVentureStatus (s : VenturesState) (id : String) (status : VentureStatus) : VenturesState :=
  { s with ventures := s.ventures.map fun v =>
      if v.id = id then { v with status := status } else v }

/-- ADD_JOIN_REQUEST reducer case: duplicates with an existing request id are ignored. -/
def addJoinRequest (s : VenturesState) (ventureId : String) (request : JoinRequest) : VenturesState :=
  let existing := (getEntry s.joinRequests ventureId).getD []
  if existing.any (fun r => decide (r.id = request.id)) then s
  else { s with joinRequests := setEntry s.joinRequests ventureId (existing ++ [request]) }

/-- hasRequestedJoin: scoped to the user when an authUsername is supplied. -/
def hasRequestedJoin (s : VenturesState) (ventureId : String) (authUsername : Option String) : Bool :=
  let requests := (getEntry s.joinRequests ventureId).getD []
  match authUsername with
  | some u =>
      requests.any fun r =>
        decide (r.authUsername = some u) &&
        (decide (r.status = none) || decide (r.status = some RequestStatus.pending))
  | none => !requests.isEmpty

def getJoinRequestsForVenture (s : VenturesState) (ventureId : String) : List JoinRequest :=
  (getEntry s.joinRequests ventureId).getD []

/-- UPDATE_JOIN_REQUEST_STATUS reducer case. -/
def updateJoinRequestStatus (s : VenturesState) (ventureId requestId : String)
    (status : RequestStatus) : VenturesState :=
  let existing := (getEntry s.joinRequests ventureId).getD []
  let updated := existing.map fun r =>
    if r.id = requestId then { r with status := some status } else r
  { s with joinRequests := setEntry s.joinRequests ventureId updated }

/-- REJECT_ALL_PENDING_REQUESTS reducer case. -/
def rejectAllPendingRequests (s : VenturesState) (ventureId : String) : VenturesState :=
  let existing := (getEntry s.joinRequests ventureId).getD []
  let updated := existing.map fun r =>
    if r.status = none ∨ r.status = some RequestStatus.pending
    then { r with status := some RequestStatus.denied } else r
  { s with joinRequests := setEntry s.joinRequests ventureId updated }

def getMembersForVenture (s : VenturesState) (ventureId : String) : List VentureMember :=
  (getEntry s.members ventureId).getD []

/-- ADD_MEMBER reducer case: idempotent on a duplicate member id. -/
def addMember (s : VenturesState) (ventureId : String) (member : VentureMember) : VenturesState :=
  let existing := (getEntry s.members ventureId).getD []
  if existing.any (fun m => decide (m.id = member.id)) then s
  else { s with members := setEntry s.members ventureId (existing ++ [member]) }

/-- REMOVE_MEMBER reducer case. -/
def removeMember (s : VenturesState) (ventureId memberId : String) : VenturesState :=
  let existing := (getEntry s.members ventureId).getD []
  let updated := existing.filter fun m => decide (m.id ≠ memberId)
  { s with members := setEntry s.members ventureId updated }

def getVentureTxs (s : VenturesState) (ventureId : String) : List Transaction :=
  (getEntry s.ventureTxs ventureId).getD []

/-- ADD_VENTURE_TX reducer case: the new transaction is put in front. -/
def addVentureTx (s : VenturesState) (ventureId : String) (tx : Transaction) : VenturesState :=
  let existing := (getEntry s.ventureTxs ventureId).getD []
  { s with ventureTxs := setEntry s.ventureTxs ventureId (tx :: existing) }

def getPledgesForVenture (s : VenturesState) (ventureId : String) : List Pledge :=
  (getEntry s.pledges ventureId).getD []

/-- RECORD_PLEDGE reducer case: replaces any pledge of the same user on the venture. -/
def recordPledge (s : VenturesState) (pledge : Pledge) : VenturesState :=
  let existing := ((getEntry s.pledges pledge.ventureId).getD []).filter
    fun p => decide (p.authUsername ≠ pledge.authUsername)
  { s with pledges := setEntry s.pledges pledge.ventureId (existing ++ [pledge]) }

/-- REMOVE_PLEDGE reducer case. -/
def removePledge (s : VenturesState) (ventureId authUsername : String) : VenturesState :=
  let existing := (getEntry s.pledges ventureId).getD []
  let updated := existing.filter fun p => decide (p.authUsername ≠ authUsername)
  { s with pledges := setEntry s.pledges ventureId updated }

-- ─── Permission model ────────────────────────────────────────────────────────

/-- Permission keys of the permission model. -/
inductive Permission
  | VIEW_VENTURE
  | VIEW_MEMBERS
  | VIEW_WALLET
  | VIEW_REQUESTS
  | VIEW_TASKS
  | VIEW_SUPPLIES
  | CREATE_TASK
  | COMPLETE_TASK
  | ASSIGN_TASK
  | CONTRIBUTE_FUNDS
  | PURCHASE_SUPPLIES
  | MANAGE_REQUESTS
  | REMOVE_MEMBER
  | CHANGE_MEMBER_ROLE
  | CHANGE_VENTURE_STATUS
  | UPLOAD_PHOTO
  | SET_COVER_PHOTO
  | REMOVE_PHOTO
deriving DecidableEq, Repr

/-- Privilege to allowed permissions; none plays the part of the none key
of the source record, used for users who are not members. -/
def PRIVILEGE_PERMISSIONS : Option UserPrivilege → List Permission
  | some UserPrivilege.coOwner =>
      [ Permission.VIEW_VENTURE, Permission.VIEW_MEMBERS, Permission.VIEW_WALLET, Permission.VIEW_REQUESTS
      , Permission.VIEW_TASKS, Permission.VIEW_SUPPLIES
      , Permission.CREATE_TASK, Permission.COMPLETE_TASK, Permission.ASSIGN_TASK
      , Permission.CONTRIBUTE_FUNDS, Permission.PURCHASE_SUPPLIES
      , Permission.MANAGE_REQUESTS, Permission.REMOVE_MEMBER, Permission.CHANGE_MEMBER_ROLE
      , Permission.CHANGE_VENTURE_STATUS
      , Permission.UPLOAD_PHOTO, Permission.SET_COVER_PHOTO, Permission.REMOVE_PHOTO ]
  | some UserPrivilege.admin =>
      [ Permission.VIEW_VENTURE, Permission.VIEW_MEMBERS, Permission.VIEW_WALLET, Permission.VIEW_REQUESTS
      , Permission.VIEW_TASKS, Permission.VIEW_SUPPLIES
      , Permission.CREATE_TASK, Permission.COMPLETE_TASK, Permission.ASSIGN_TASK
      , Permission.CONTRIBUTE_FUNDS
      , Permission.MANAGE_REQUESTS
      , Permission.UPLOAD_PHOTO ]
  | some UserPrivilege.buyer =>
      [ Permission.VIEW_VENTURE, Permission.VIEW_MEMBERS, Permission.VIEW_WALLET
      , Permission.VIEW_TASKS, Permission.VIEW_SUPPLIES
      , Permission.CONTRIBUTE_FUNDS, Permission.PURCHASE_SUPPLIES
      , Permission.UPLOAD_PHOTO ]
  | some UserPrivilege.viewer =>
      [ Permission.VIEW_VENTURE, Permission.VIEW_MEMBERS, Permission.VIEW_WALLET
      , Permission.VIEW_TASKS, Permission.VIEW_SUPPLIES ]
  | none =>
      [ Permission.VIEW_VENTURE ]

/-- Check if a user has a specific permission; isOwner bypasses all checks. -/
def can (privilege : Option UserPrivilege) (permission : Permission) (isOwner : Bool) : Bool :=
  if isOwner then true
  else decide (permission ∈ PRIVILEGE_PERMISSIONS privilege)

-- ─── Financial lifecycle handlers (venture-detail screen) ────────────────────

/-- Combined state the orchestration handlers act on: the ventures store and
the wallet store. -/
structure AppState where
  ventures : VenturesState
  wallets : WalletMap

/-- handlePledgeDeduct: on approval of a join request with a pledge, deduct
the amount from the wallet, record the pledge, and add a contribution
transaction to the venture ledger. -/
def handlePledgeDeduct (s : AppState) (ventureId ventureName : String)
    (authUsername displayName : String) (amount : ℚ)
    (nowMs : Nat) (nowIso : String) : AppState :=
  let wallets := deduct s.wallets authUsername amount
    (some ("Pledge to " ++ ventureName)) nowMs nowIso
  let ventures := recordPledge s.ventures
    { ventureId := ventureId, authUsername := authUsername
      displayName := displayName, amount := amount }
  let tx : Transaction :=
    { id := "tx-pledge-" ++ toString nowMs, ventureId := ventureId
      type := TxType.contribution, username := displayName, amount := amount
      description := "Pledge on joining", timestamp := nowIso }
  { ventures := addVentureTx ventures ventureId tx, wallets := wallets }

/-- handleMemberRefund: when a member is removed or leaves, refund their
pledge; a missing pledge or a non-positive amount is a no-op. -/
def handleMemberRefund (s : AppState) (ventureId ventureName : String)
    (authUsername displayName : String)
    (nowMs : Nat) (nowIso : String) : AppState :=
  let pledges := getPledgesForVenture s.ventures ventureId
  match pledges.find? (fun p => decide (p.authUsername = authUsername)) with
  | none => s
  | some pledge =>
    if pledge.amount ≤ 0 then s
    else
      let wallets := topup s.wallets authUsername pledge.amount
        ("Refund from " ++ ventureName) nowMs nowIso
      let ventures := removePledge s.ventures ventureId authUsername
      let tx : Transaction :=
        { id := "tx-refund-" ++ toString nowMs, ventureId := ventureId
          type := TxType.refund, username := displayName, amount := pledge.amount
          description := "Refund on leaving/removal", timestamp := nowIso }
      { ventures := addVentureTx ventures ventureId tx, wallets := wallets }

/-- The remaining balance exactly as handleVentureCompletion computes it:
filtered from the static MOCK_TRANSACTIONS seed list, contribution sum minus
purchase sum, floored at zero. -/
def completionRemaining (ventureId : String) : ℚ :=
  let storedTxs := MOCK_TRANSACTIONS.filter fun t => decide (t.ventureId = ventureId)
  let totalContributed := ((storedTxs.filter fun t => decide (t.type = TxType.contribution)).map
    Transaction.amount).sum
  let totalSpent := ((storedTxs.filter fun t => decide (t.type = TxType.purchase)).map
    Transaction.amount).sum
  mathMax 0 (totalContributed - totalSpent)

/-- handleVentureCompletion: proportional payout of the remaining balance to
the current pledges, then clearing of all pledges for the venture. The wallet
credit is issued only when the pledge holder is the signed-in user
(authUser); the cashout ledger entry is recorded for every positive payout. -/
def handleVentureCompletion (s : AppState) (ventureId ventureName : String)
    (authUser : Option String) (nowMs : Nat) (nowIso : String) : AppState :=
  let pledges := getPledgesForVenture s.ventures ventureId
  let totalPledged := (pledges.map Pledge.amount).sum
  let txs := getMembersForVenture s.ventures ventureId
  let _ := txs
  let remaining := completionRemaining ventureId
  let s1 :=
    if remaining > 0 ∧ totalPledged > 0 then
      pledges.foldl (fun acc pledge =>
        let share := pledge.amount / totalPledged
        let refundAmount := mathRound (remaining * share)
        if refundAmount > 0 then
          let acc1 :=
            if authUser = some pledge.authUsername then
              let creditedWallets := topup acc.wallets pledge.authUsername (refundAmount : ℚ)
                ("Payout from completed venture " ++ ventureName) nowMs nowIso
              { acc with wallets := creditedWallets }
            else acc
          let tx : Transaction :=
            { id := "tx-payout-" ++ toString nowMs ++ "-" ++ pledge.authUsername
              ventureId := ventureId, type := TxType.cashout, username := pledge.displayName
              amount := (refundAmount : ℚ)
              description := "Proportional payout (" ++ toString (mathRound (share * 100)) ++ "% share)"
              timestamp := nowIso }
          { acc1 with ventures := addVentureTx acc1.ventures ventureId tx }
        else acc) s
    else s
  let cleared := pledges.foldl (fun vs p => removePledge vs ventureId p.authUsername) s1.ventures
  { s1 with ventures := cleared }

/-- Modelled from the spec: the remaining amount of the settlement, computed
over the venture transaction ledger as it stands at completion time, the sum
of contribution-type amounts minus the sum of purchase-type amounts, floored
at zero, with cashout and refund types excluded. Named for comparison with
completionRemaining, which the code computes from the static seed list. -/
def specRemaining (s : VenturesState) (ventureId : String) : ℚ :=
  let txs := getVentureTxs s ventureId
  let totalContributions := ((txs.filter fun t => decide (t.type = TxType.contribution)).map
    Transaction.amount).sum
  let totalPurchases := ((txs.filter fun t => decide (t.type = TxType.purchase)).map
    Transaction.amount).sum
  mathMax 0 (totalContributions - totalPurchases)

-- ─── Concrete fixtures ───────────────────────────────────────────────────────

/-- The ventures store with every collection empty. -/
def emptyVenturesState : VenturesState :=
  { ventures := [], tasks := emptyRecord, joinRequests := emptyRecord
    members := emptyRecord, ventureTxs := emptyRecord, pledges := emptyRecord }

def pledgeBob300 : Pledge :=
  { authUsername := "bob", displayName := "Bob R.", amount := 300, ventureId := "v1" }

def refundFixture : AppState :=
  { ventures := { emptyVenturesState with pledges := setEntry emptyRecord "v1" [pledgeBob300] }
    wallets := emptyRecord }

def roundTripFixture : AppState :=
  { ventures := emptyVenturesState
    wallets := setEntry emptyRecord "bob" { balance := 1000, transactions := [] } }

def requestBob1 : JoinRequest :=
  { id := "jr-1", ventureId := "v1", username := "Bob R.", authUsername := some "bob"
    avatar := "av", rating := 4.5, role := UserRole.volunteer, privilege := none
    pitch := 0, message := "hi", status := some RequestStatus.pending }

def requestBob2 : JoinRequest := { requestBob1 with id := "jr-2" }

def sampleVenture : Venture :=
  { id := "v1", name := "Riverside Cleanup", location := "Riverside Park"
    coordinates := { lat := 19, lng := 72 }, description := "Community cleanup drive"
    status := VentureStatus.finished, scope := [Scope.clean], category := "cleanup"
    isFree := false, budget := 5000, currentFunding := 0, eac := 300
    volunteersJoined := 3, volunteersRequired := 10, startDate := "2026-02-01"
    endDate := "2026-03-01", images := [], tags := [], ownerName := "Abhijeet P."
    ownerAvatar := "av", ownerStats := { completed := 4, rating := 4.8 }
    myRole := none, myPrivilege := none }

def finishedVentureState : VenturesState :=
  { emptyVenturesState with ventures := [sampleVenture] }

def pledgeAliceV8 : Pledge :=
  { authUsername := "alice", displayName := "Alice K.", amount := 100, ventureId := "v8" }

def pledgeBobV8 : Pledge :=
  { authUsername := "bob", displayName := "Bob R.", amount := 150, ventureId := "v8" }

def settlementFixture : AppState :=
  { ventures := { emptyVenturesState with
      pledges := setEntry emptyRecord "v8" [pledgeAliceV8, pledgeBobV8] }
    wallets := emptyRecord }

def settlementResult : AppState :=
  handleVentureCompletion settlementFixture "v8" "Versova Beach Cleanup" (some "alice") 9 "t9"

def pledgeCharlieV9 : Pledge :=
  { authUsername := "charlie", displayName := "Charlie D.", amount := 100, ventureId := "v9" }

def liveLedgerTx : Transaction :=
  { id := "tx-live-1", ventureId := "v9", type := TxType.contribution
    username := "Charlie D.", amount := 100, description := "Pledge on joining"
    timestamp := "t0" }

def liveLedgerFixture : AppState :=
  { ventures := { emptyVenturesState with
      pledges := setEntry emptyRecord "v9" [pledgeCharlieV9]
      ventureTxs := setEntry emptyRecord "v9" [liveLedgerTx] }
    wallets := emptyRecord }

def liveLedgerResult : AppState :=
  handleVentureCompletion liveLedgerFixture "v9" "Juhu Beach Restoration" (some "charlie")
    11 "t11"

def pendingRequestDanV9 : JoinRequest :=
  { id := "jr-dan", ventureId := "v9", username := "Dan E.", authUsername := some "dan"
    avatar := "av", rating := 4, role := UserRole.volunteer, privilege := none
    pitch := 0, message := "hello", status := some RequestStatus.pending }

def ongoingVentureV9 : Venture :=
  { sampleVenture with id := "v9", status := VentureStatus.ongoing }

def completionFlowFixture : AppState :=
  { ventures := { emptyVenturesState with
      ventures := [ongoingVentureV9]
      joinRequests := setEntry emptyRecord "v9" [pendingRequestDanV9]
      pledges := setEntry emptyRecord "v9" [pledgeCharlieV9] }
    wallets := emptyRecord }

def completionFlowResult : AppState :=
  handleVentureCompletion
    { completionFlowFixture with
        ventures := updateVentureStatus completionFlowFixture.ventures "v9"
          VentureStatus.finished }
    "v9" "Juhu Beach Restoration" (some "charlie") 13 "t13"

-- ─── Supporting lemmas ───────────────────────────────────────────────────────

theorem mathMax_eq_max (a b : ℚ) : mathMax a b = max a b := (max_def a b).symm

theorem getEntry_setEntry_self {α : Type} (m : RecordMap α) (k : String) (v : α) :
    getEntry (setEntry m k v) k = some v := by
  simp [getEntry, setEntry]

theorem getEntry_setEntry_ne {α : Type} (m : RecordMap α) (k q : String) (v : α)
    (h : q ≠ k) : getEntry (setEntry m k v) q = getEntry m q := by
  simp [getEntry, setEntry, h]

theorem getOrCreateWallet_setEntry_self (wallets : WalletMap) (u : String) (w : UserWallet) :
    getOrCreateWallet (setEntry wallets u w) u = w := by
  simp [getOrCreateWallet, getEntry_setEntry_self]

theorem getBalance_topup_self (wallets : WalletMap) (u : String) (amount : ℚ) (label : String)
    (nowMs : Nat) (nowIso : String) :
    getBalance (topup wallets u amount label nowMs nowIso) u = getBalance wallets u + amount := by
  simp [getBalance, topup, getOrCreateWallet_setEntry_self]

theorem getBalance_deduct_self (wallets : WalletMap) (u : String) (amount : ℚ)
    (label : Option String) (nowMs : Nat) (nowIso : String) :
    getBalance (deduct wallets u amount label nowMs nowIso) u
      = mathMax 0 (getBalance wallets u - amount) := by
  simp [getBalance, deduct, getOrCreateWallet_setEntry_self]

theorem getTransactions_topup_self (wallets : WalletMap) (u : String) (amount : ℚ) (label : String)
    (nowMs : Nat) (nowIso : String) :
    getTransactions (topup wallets u amount label nowMs nowIso) u
      = { id := "tx-" ++ toString nowMs, type := WalletTxType.topup, amount := amount
          label := label, timestamp := nowIso } :: getTransactions wallets u := by
  simp [getTransactions, topup, getOrCreateWallet_setEntry_self]

theorem getTransactions_deduct_self (wallets : WalletMap) (u : String) (amount : ℚ)
    (label : Option String) (nowMs : Nat) (nowIso : String) :
    getTransactions (deduct wallets u amount label nowMs nowIso) u
      = { id := "tx-" ++ toString nowMs, type := WalletTxType.deduct, amount := amount
          label := label.getD "Purchase", timestamp := nowIso } :: getTransactions wallets u := by
  simp [getTransactions, deduct, getOrCreateWallet_setEntry_self]

theorem find?_pledge_filter_self (l : List Pledge) (u : String) :
    (l.filter fun p => decide (p.authUsername ≠ u)).find?
      (fun p => decide (p.authUsername = u)) = none := by
  rw [List.find?_eq_none]
  intro x hx
  rw [List.mem_filter] at hx
  simpa using hx.2

theorem getPledgesForVenture_removePledge_self (s : VenturesState) (ventureId u : String) :
    getPledgesForVenture (removePledge s ventureId u) ventureId
      = (getPledgesForVenture s ventureId).filter fun p => decide (p.authUsername ≠ u) := by
  simp [getPledgesForVenture, removePledge, getEntry_setEntry_self]

theorem getPledgesForVenture_recordPledge_self (s : VenturesState) (pledge : Pledge) :
    getPledgesForVenture (recordPledge s pledge) pledge.ventureId
      = ((getPledgesForVenture s pledge.ventureId).filter
          fun p => decide (p.authUsername ≠ pledge.authUsername)) ++ [pledge] := by
  simp [getPledgesForVenture, recordPledge, getEntry_setEntry_self]

theorem getPledgesForVenture_addVentureTx (s : VenturesState) (ventureId txVentureId : String)
    (tx : Transaction) :
    getPledgesForVenture (addVentureTx s txVentureId tx) ventureId
      = getPledgesForVenture s ventureId := rfl

theorem getVentureTxs_addVentureTx_self (s : VenturesState) (ventureId : String)
    (tx : Transaction) :
    getVentureTxs (addVentureTx s ventureId tx) ventureId = tx :: getVentureTxs s ventureId := by
  simp [getVentureTxs, addVentureTx, getEntry_setEntry_self]

theorem getVentureTxs_removePledge (s : VenturesState) (ventureId pVentureId u : String) :
    getVentureTxs (removePledge s pVentureId u) ventureId = getVentureTxs s ventureId := rfl

theorem find?_pledge_after_record (l : List Pledge) (x : Pledge) :
    ((l.filter fun p => decide (p.authUsername ≠ x.authUsername)) ++ [x]).find?
      (fun p => decide (p.authUsername = x.authUsername)) = some x := by
  rw [List.find?_append, find?_pledge_filter_self]
  simp [List.find?_cons]

-- ─── Claim theorems ──────────────────────────────────────────────────────────

/-- Claim C6: for every user and every amount > 0, deduct appends exactly one
deduct-type wallet transaction and sets the balance to max(0, balance −
amount); it is a total function, so it never fails or rejects, even when the
amount exceeds the balance. -/
theorem deduct_floors_at_zero_and_logs (wallets : WalletMap) (u : String) (amount : ℚ)
    (label : Option String) (nowMs : Nat) (nowIso : String) (h : 0 < amount) :
    getBalance (deduct wallets u amount label nowMs nowIso) u
      = max 0 (getBalance wallets u - amount) ∧
    getTransactions (deduct wallets u amount label nowMs nowIso) u
      = { id := "tx-" ++ toString nowMs, type := WalletTxType.deduct, amount := amount
          label := label.getD "Purchase", timestamp := nowIso } :: getTransactions wallets u := by
  refine ⟨?_, getTransactions_deduct_self wallets u amount label nowMs nowIso⟩
  rw [getBalance_deduct_self, mathMax_eq_max]

/-- Claim C6 witness: deducting 2000 from a fresh wallet of balance 1200 floors the
balance at zero and logs one deduct transaction. -/
theorem deduct_floors_at_zero_and_logs_witness :
    getBalance (deduct emptyRecord "bob" 2000 none 7 "t7") "bob" = 0 ∧
    (getTransactions (deduct emptyRecord "bob" 2000 none 7 "t7") "bob").map
      (fun t => (t.type, t.amount)) = [(WalletTxType.deduct, (2000 : ℚ))] := by
  have h := deduct_floors_at_zero_and_logs emptyRecord "bob" 2000 none 7 "t7" (by norm_num)
  have hb : getBalance emptyRecord "bob" = 1200 := by
    simp [getBalance, getOrCreateWallet, getEntry, emptyRecord, INITIAL_BALANCES
      , DEFAULT_INITIAL_BALANCE]
  have ht : getTransactions emptyRecord "bob" = [] := by
    simp [getTransactions, getOrCreateWallet, getEntry, emptyRecord]
  refine ⟨?_, ?_⟩
  · rw [h.1, hb]; norm_num
  · rw [h.2, ht]; simp

/-- Claim C7: can returns true unconditionally when isOwner is true; with isOwner
false it is exactly membership in the static privilege table, so viewer does
not get COMPLETE_TASK, a non-member gets VIEW_VENTURE, and any permission
outside the allowed set of the privilege yields false. -/
theorem can_owner_override_and_table_lookup :
    (∀ (privilege : Option UserPrivilege) (permission : Permission),
        can privilege permission true = true) ∧
    (∀ (privilege : Option UserPrivilege) (permission : Permission),
        can privilege permission false = true ↔ permission ∈ PRIVILEGE_PERMISSIONS privilege) ∧
    can (some UserPrivilege.viewer) Permission.COMPLETE_TASK false = false ∧
    can none Permission.VIEW_VENTURE false = true := by
  refine ⟨fun _ _ => rfl, fun privilege permission => ?_, by decide, by decide⟩
  simp [can]

/-- Claim C10: called without an authUsername, hasRequestedJoin is true exactly
when the venture has at least one join request of any status from any user. -/
theorem hasRequestedJoin_without_user_any_request (s : VenturesState) (ventureId : String) :
    hasRequestedJoin s ventureId none = true ↔
      ∃ r, r ∈ getJoinRequestsForVenture s ventureId := by
  unfold hasRequestedJoin getJoinRequestsForVenture
  cases (getEntry s.joinRequests ventureId).getD [] with
  | nil => simp
  | cons a l => simp

-- ─── Refund path shape lemmas ────────────────────────────────────────────────

theorem handleMemberRefund_eq_of_none (s : AppState)
    (ventureId ventureName authUsername displayName : String)
    (nowMs : Nat) (nowIso : String)
    (hf : (getPledgesForVenture s.ventures ventureId).find?
        (fun p => decide (p.authUsername = authUsername)) = none) :
    handleMemberRefund s ventureId ventureName authUsername displayName nowMs nowIso = s := by
  simp only [handleMemberRefund, hf]

theorem handleMemberRefund_eq_of_nonpos (s : AppState)
    (ventureId ventureName authUsername displayName : String)
    (nowMs : Nat) (nowIso : String) (pledge : Pledge)
    (hf : (getPledgesForVenture s.ventures ventureId).find?
        (fun p => decide (p.authUsername = authUsername)) = some pledge)
    (hle : pledge.amount ≤ 0) :
    handleMemberRefund s ventureId ventureName authUsername displayName nowMs nowIso = s := by
  simp only [handleMemberRefund, hf]
  rw [if_pos hle]

theorem handleMemberRefund_eq_of_found (s : AppState)
    (ventureId ventureName authUsername displayName : String)
    (nowMs : Nat) (nowIso : String) (pledge : Pledge)
    (hf : (getPledgesForVenture s.ventures ventureId).find?
        (fun p => decide (p.authUsername = authUsername)) = some pledge)
    (hpos : 0 < pledge.amount) :
    handleMemberRefund s ventureId ventureName authUsername displayName nowMs nowIso
      = { ventures := addVentureTx (removePledge s.ventures ventureId authUsername) ventureId
            { id := "tx-refund-" ++ toString nowMs, ventureId := ventureId
              type := TxType.refund, username := displayName, amount := pledge.amount
              description := "Refund on leaving/removal", timestamp := nowIso }
          wallets := topup s.wallets authUsername pledge.amount
            ("Refund from " ++ ventureName) nowMs nowIso } := by
  simp only [handleMemberRefund, hf]
  rw [if_neg (not_le.mpr hpos)]

/-- Claim C4: for a recorded pledge with positive amount, the refund path credits
the wallet by exactly the pledge amount, deletes the pledge record, and adds
exactly one refund-type venture transaction of that amount; when no pledge
is found, or its amount is non-positive, the call is a no-op, and in
particular a second consecutive invocation after a successful refund is a
no-op on the already refunded state. -/
theorem handleMemberRefund_refunds_exactly_once (s : AppState)
    (ventureId ventureName authUsername displayName : String)
    (nowMs n2 : Nat) (nowIso i2 : String) :
    (∀ pledge : Pledge,
      (getPledgesForVenture s.ventures ventureId).find?
          (fun p => decide (p.authUsername = authUsername)) = some pledge →
      0 < pledge.amount →
      getBalance (handleMemberRefund s ventureId ventureName authUsername displayName
          nowMs nowIso).wallets authUsername
        = getBalance s.wallets authUsername + pledge.amount ∧
      (getPledgesForVenture (handleMemberRefund s ventureId ventureName authUsername displayName
          nowMs nowIso).ventures ventureId).find?
          (fun p => decide (p.authUsername = authUsername)) = none ∧
      getVentureTxs (handleMemberRefund s ventureId ventureName authUsername displayName
          nowMs nowIso).ventures ventureId
        = { id := "tx-refund-" ++ toString nowMs, ventureId := ventureId
            type := TxType.refund, username := displayName, amount := pledge.amount
            description := "Refund on leaving/removal", timestamp := nowIso }
          :: getVentureTxs s.ventures ventureId ∧
      handleMemberRefund (handleMemberRefund s ventureId ventureName authUsername displayName
          nowMs nowIso) ventureId ventureName authUsername displayName n2 i2
        = handleMemberRefund s ventureId ventureName authUsername displayName nowMs nowIso) ∧
    ((getPledgesForVenture s.ventures ventureId).find?
        (fun p => decide (p.authUsername = authUsername)) = none →
      handleMemberRefund s ventureId ventureName authUsername displayName nowMs nowIso = s) ∧
    (∀ pledge : Pledge,
      (getPledgesForVenture s.ventures ventureId).find?
          (fun p => decide (p.authUsername = authUsername)) = some pledge →
      pledge.amount ≤ 0 →
      handleMemberRefund s ventureId ventureName authUsername displayName nowMs nowIso = s) := by
  refine ⟨?_, ?_, ?_⟩
  · intro pledge hf hpos
    rw [handleMemberRefund_eq_of_found s ventureId ventureName authUsername displayName
      nowMs nowIso pledge hf hpos]
    have hnone : (getPledgesForVenture
        (addVentureTx (removePledge s.ventures ventureId authUsername) ventureId
          { id := "tx-refund-" ++ toString nowMs, ventureId := ventureId
            type := TxType.refund, username := displayName, amount := pledge.amount
            description := "Refund on leaving/removal", timestamp := nowIso }) ventureId).find?
        (fun p => decide (p.authUsername = authUsername)) = none := by
      rw [getPledgesForVenture_addVentureTx, getPledgesForVenture_removePledge_self]
      exact find?_pledge_filter_self _ _
    refine ⟨getBalance_topup_self s.wallets authUsername pledge.amount _ nowMs nowIso,
      hnone, ?_, ?_⟩
    · rw [getVentureTxs_addVentureTx_self, getVentureTxs_removePledge]
    · exact handleMemberRefund_eq_of_none _ ventureId ventureName authUsername displayName
        n2 i2 hnone
  · intro hf
    exact handleMemberRefund_eq_of_none s ventureId ventureName authUsername displayName
      nowMs nowIso hf
  · intro pledge hf hle
    exact handleMemberRefund_eq_of_nonpos s ventureId ventureName authUsername displayName
      nowMs nowIso pledge hf hle

/-- Claim C4 witness: refunding the 300 pledge of bob on a fresh wallet of balance
1200 yields balance 1500. -/
theorem handleMemberRefund_refunds_exactly_once_witness :
    getBalance (handleMemberRefund refundFixture "v1" "Riverside Cleanup" "bob" "Bob R."
        3 "t3").wallets "bob" = 1500 := by
  have hf : (getPledgesForVenture refundFixture.ventures "v1").find?
      (fun p => decide (p.authUsername = "bob")) = some pledgeBob300 := by
    simp [refundFixture, getPledgesForVenture, getEntry_setEntry_self, List.find?,
      pledgeBob300]
  have h := ((handleMemberRefund_refunds_exactly_once refundFixture "v1" "Riverside Cleanup"
    "bob" "Bob R." 3 4 "t3" "t4").1 pledgeBob300 hf (by norm_num [pledgeBob300])).1
  rw [h]
  have hb : getBalance refundFixture.wallets "bob" = 1200 := by
    simp [refundFixture, getBalance, getOrCreateWallet, getEntry, emptyRecord,
      INITIAL_BALANCES, DEFAULT_INITIAL_BALANCE]
  rw [hb]
  norm_num [pledgeBob300]

/-- Claim C5: pledge deduction of a positive pitch covered by the balance followed
by the refund path restores the wallet balance exactly and leaves no pledge
record for the user on the venture. -/
theorem approve_then_remove_restores_wallet (s : AppState)
    (ventureId ventureName authUsername displayName : String) (pitch : ℚ)
    (n1 n2 : Nat) (i1 i2 : String)
    (hpos : 0 < pitch) (hsuff : pitch ≤ getBalance s.wallets authUsername) :
    getBalance (handleMemberRefund (handlePledgeDeduct s ventureId ventureName authUsername
        displayName pitch n1 i1) ventureId ventureName authUsername displayName
        n2 i2).wallets authUsername
      = getBalance s.wallets authUsername ∧
    (getPledgesForVenture (handleMemberRefund (handlePledgeDeduct s ventureId ventureName
        authUsername displayName pitch n1 i1) ventureId ventureName authUsername displayName
        n2 i2).ventures ventureId).find?
        (fun p => decide (p.authUsername = authUsername)) = none := by
  have hpl : getPledgesForVenture (handlePledgeDeduct s ventureId ventureName authUsername
      displayName pitch n1 i1).ventures ventureId
      = ((getPledgesForVenture s.ventures ventureId).filter
          fun p => decide (p.authUsername ≠ authUsername))
        ++ [{ ventureId := ventureId, authUsername := authUsername
              displayName := displayName, amount := pitch }] := by
    show getPledgesForVenture (addVentureTx (recordPledge s.ventures _) ventureId _) ventureId = _
    rw [getPledgesForVenture_addVentureTx]
    exact getPledgesForVenture_recordPledge_self s.ventures _
  have hfind : (getPledgesForVenture (handlePledgeDeduct s ventureId ventureName authUsername
      displayName pitch n1 i1).ventures ventureId).find?
      (fun p => decide (p.authUsername = authUsername))
      = some { ventureId := ventureId, authUsername := authUsername
               displayName := displayName, amount := pitch } := by
    rw [hpl]
    exact find?_pledge_after_record (getPledgesForVenture s.ventures ventureId)
      { ventureId := ventureId, authUsername := authUsername
        displayName := displayName, amount := pitch }
  rw [handleMemberRefund_eq_of_found _ ventureId ventureName authUsername displayName
    n2 i2 _ hfind hpos]
  constructor
  · rw [getBalance_topup_self]
    have hw : getBalance (handlePledgeDeduct s ventureId ventureName authUsername displayName
        pitch n1 i1).wallets authUsername
        = mathMax 0 (getBalance s.wallets authUsername - pitch) := by
      show getBalance (deduct s.wallets authUsername pitch _ n1 i1) authUsername = _
      exact getBalance_deduct_self s.wallets authUsername pitch _ n1 i1
    rw [hw, mathMax_eq_max, max_eq_right (sub_nonneg.mpr hsuff)]
    exact sub_add_cancel _ _
  · rw [getPledgesForVenture_addVentureTx, getPledgesForVenture_removePledge_self]
    exact find?_pledge_filter_self _ _

/-- Claim C5 witness: with balance 1000 and pitch 300, deduct then refund yields
balance 1000 again. -/
theorem approve_then_remove_restores_wallet_witness :
    getBalance (handleMemberRefund (handlePledgeDeduct roundTripFixture "v1" "Riverside Cleanup"
        "bob" "Bob R." 300 1 "t1") "v1" "Riverside Cleanup" "bob" "Bob R."
        2 "t2").wallets "bob" = 1000 := by
  have hb : getBalance roundTripFixture.wallets "bob" = 1000 := by
    simp [roundTripFixture, getBalance, getOrCreateWallet_setEntry_self]
  have h := (approve_then_remove_restores_wallet roundTripFixture "v1" "Riverside Cleanup"
    "bob" "Bob R." 300 1 2 "t1" "t2" (by norm_num) (by rw [hb]; norm_num)).1
  rw [h, hb]

-- ─── C8: duplicate join requests ─────────────────────────────────────────────

/-- Claim C8 counterexample: two submissions with distinct fresh ids by the same
user on the same venture both land as pending, so more than one pending
request per (ventureId, authUsername) can exist after a sequence of
submissions. -/
theorem addJoinRequest_second_submission_not_ignored :
    ((getJoinRequestsForVenture
        (addJoinRequest (addJoinRequest emptyVenturesState "v1" requestBob1) "v1" requestBob2)
        "v1").filter fun r =>
          decide (r.authUsername = some "bob") &&
          (decide (r.status = none) || decide (r.status = some RequestStatus.pending))).length
      = 2 := by
  simp [addJoinRequest, getJoinRequestsForVenture, emptyVenturesState, getEntry, setEntry,
    emptyRecord, requestBob1, requestBob2, List.filter]

/-- Claim C8 amended: the engine defensively ignores a duplicate submission only
when it carries a request id already present for the venture; such a call
leaves the state unchanged. Per-user pending uniqueness is enforced
upstream by the UI, not by the engine. -/
theorem addJoinRequest_ignores_duplicate_id (s : VenturesState) (ventureId : String)
    (request : JoinRequest)
    (h : ((getEntry s.joinRequests ventureId).getD []).any
        (fun r => decide (r.id = request.id)) = true) :
    addJoinRequest s ventureId request = s := by
  simp [addJoinRequest, h]

/-- Claim C8 amended witness: resubmitting the very same request id is ignored. -/
theorem addJoinRequest_ignores_duplicate_id_witness :
    addJoinRequest (addJoinRequest emptyVenturesState "v1" requestBob1) "v1" requestBob1
      = addJoinRequest emptyVenturesState "v1" requestBob1 := by
  apply addJoinRequest_ignores_duplicate_id
  simp [addJoinRequest, emptyVenturesState, getEntry, setEntry, emptyRecord, requestBob1]

-- ─── C9: status transitions ──────────────────────────────────────────────────

/-- Claim C9 counterexample: updateVentureStatus applies the illegal finished to
proposed transition instead of rejecting it, so finished is not terminal. -/
theorem updateVentureStatus_applies_illegal_transition :
    finishedVentureState.ventures.map Venture.status = [VentureStatus.finished] ∧
    (updateVentureStatus finishedVentureState "v1" VentureStatus.proposed).ventures.map
      Venture.status = [VentureStatus.proposed] := by
  constructor
  · simp [finishedVentureState, emptyVenturesState, sampleVenture]
  · simp [updateVentureStatus, finishedVentureState, emptyVenturesState, sampleVenture]

/-- Claim C9 amended: the store applies any requested status change to the
matching venture unconditionally, regardless of the current status, and
leaves other ventures unchanged; transition legality is not enforced at
this level. -/
theorem updateVentureStatus_applies_any_status (s : VenturesState) (id : String)
    (status : VentureStatus) (v : Venture) (hmem : v ∈ s.ventures) (hid : v.id = id) :
    { v with status := status } ∈ (updateVentureStatus s id status).ventures ∧
    ∀ w ∈ s.ventures, w.id ≠ id → w ∈ (updateVentureStatus s id status).ventures := by
  simp only [updateVentureStatus]
  constructor
  · refine List.mem_map.mpr ⟨v, hmem, ?_⟩
    simp [hid]
  · intro w hw hne
    refine List.mem_map.mpr ⟨w, hw, ?_⟩
    simp [hne]

/-- Claim C9 amended witness: the finished venture is reassigned proposed status. -/
theorem updateVentureStatus_applies_any_status_witness :
    { sampleVenture with status := VentureStatus.proposed }
      ∈ (updateVentureStatus finishedVentureState "v1" VentureStatus.proposed).ventures :=
  (updateVentureStatus_applies_any_status finishedVentureState "v1"
    VentureStatus.proposed sampleVenture (by simp [finishedVentureState, emptyVenturesState])
    (by simp [sampleVenture])).1

-- ─── C1: proportional payout wallet credits ──────────────────────────────────

/-- Claim C1: at a settlement with pledges alice 100 and bob 150, remaining 1050
and alice signed in, both pledgers get a positive cashout ledger entry, but
only the signed-in alice is credited; bob receives the 630 cashout entry
while his wallet balance stays unchanged, contradicting the claim that every
positive payout credits the wallet of its pledger. -/
theorem ventureCompletion_credits_only_signed_in_user :
    (getVentureTxs settlementResult.ventures "v8").map (fun t => (t.type, t.username, t.amount))
      = [(TxType.cashout, "Bob R.", (630 : ℚ)), (TxType.cashout, "Alice K.", (420 : ℚ))] ∧
    getBalance settlementResult.wallets "bob" = getBalance settlementFixture.wallets "bob" ∧
    getBalance settlementResult.wallets "alice"
      = getBalance settlementFixture.wallets "alice" + 420 ∧
    getPledgesForVenture settlementResult.ventures "v8" = [] := by
  norm_num +decide [settlementResult, settlementFixture, handleVentureCompletion,
    completionRemaining,
    MOCK_TRANSACTIONS, emptyVenturesState, getPledgesForVenture, getMembersForVenture,
    getVentureTxs, getBalance, getOrCreateWallet, getEntry, setEntry, emptyRecord,
    INITIAL_BALANCES, DEFAULT_INITIAL_BALANCE, topup, addVentureTx, removePledge,
    pledgeAliceV8, pledgeBobV8, mathRound, mathMax, List.foldl, List.filter]

-- ─── C2: remaining read from the static seed list ────────────────────────────

/-- Claim C2: on a venture whose live ledger holds a contribution of 100 appended
after seeding, the settlement computes its remaining amount from the static
seed list, 0 for this venture, not from the live ledger, 100, so it issues
no cashout and credits nobody even though the ledger-based remaining is
positive. -/
theorem ventureCompletion_reads_seed_list_not_live_ledger :
    specRemaining liveLedgerFixture.ventures "v9" = 100 ∧
    completionRemaining "v9" = 0 ∧
    (getVentureTxs liveLedgerResult.ventures "v9").filter
      (fun t => decide (t.type = TxType.cashout)) = [] ∧
    getBalance liveLedgerResult.wallets "charlie"
      = getBalance liveLedgerFixture.wallets "charlie" := by
  norm_num +decide [liveLedgerResult, liveLedgerFixture, handleVentureCompletion,
    completionRemaining, specRemaining, MOCK_TRANSACTIONS, emptyVenturesState,
    getPledgesForVenture, getMembersForVenture, getVentureTxs, getBalance, getOrCreateWallet,
    getEntry, setEntry, emptyRecord, INITIAL_BALANCES, DEFAULT_INITIAL_BALANCE, topup,
    addVentureTx, removePledge, pledgeCharlieV9, liveLedgerTx, mathRound, mathMax,
    List.foldl, List.filter]

-- ─── C3: pending requests after completion ───────────────────────────────────

/-- Claim C3: the Mark-Complete flow, the status update followed by the completion
handler, clears every pledge but leaves the still-pending join request
pending: the completion path never invokes rejectAllPendingRequests, the
store operation that would have denied it. -/
theorem ventureCompletion_leaves_pending_requests :
    getPledgesForVenture completionFlowResult.ventures "v9" = [] ∧
    (getJoinRequestsForVenture completionFlowResult.ventures "v9").map JoinRequest.status
      = [some RequestStatus.pending] ∧
    (getJoinRequestsForVenture (rejectAllPendingRequests completionFlowResult.ventures "v9")
        "v9").map JoinRequest.status = [some RequestStatus.denied] := by
  norm_num +decide [completionFlowResult, completionFlowFixture, handleVentureCompletion,
    completionRemaining, MOCK_TRANSACTIONS, emptyVenturesState, updateVentureStatus,
    getPledgesForVenture, getMembersForVenture, getJoinRequestsForVenture,
    rejectAllPendingRequests, getVentureTxs, getEntry, setEntry, emptyRecord, topup,
    addVentureTx, removePledge, pendingRequestDanV9, ongoingVentureV9, sampleVenture,
    pledgeCharlieV9, mathRound, mathMax, List.foldl, List.filter]

end CleanVentures
